import Mathlib

/-!
Shallow embedding of the Clinic AI Chatbot (src/main.py).

The program is a single-file PyQt application: a conversation transcript
(`conversation_history`, a Python list of role/content dicts), a read-only
chat view (`chat_history`, a text widget that accumulates display lines),
three one-shot remote completion calls (live reply, structured summary,
near diagnosis), a positional field extractor, and a report composer.

Modelling conventions:
  * A remote call happens at most once per operation and is never retried,
    so each call is modelled by an oracle: either a function from the sent
    message list to `Except String String` (reply generation, where the
    sent messages are cheap to construct), or directly by the call's
    outcome `Except String String` (summary and diagnosis, whose prompt
    strings embed a `json.dumps` rendering of the transcript that only the
    remote service consumes).  `Except.error e` models the Python call
    raising an exception whose `str` is `e`; `Except.ok body` models a
    successful response with message content `body`.
  * `json.loads` is the standard library's parser, external to this
    repository; it is modelled by an oracle `json_loads : String → Option
    JsonVal` returning `none` exactly when parsing raises (invalid JSON)
    and the parsed value otherwise.  `JsonVal.obj` field lists stand for
    Python dicts (unique keys).
  * Python's `str.strip()` and `str.lower()` are modelled character-wise
    (`py_strip`, `py_lower`) with the ASCII case table, which is exact on
    every string the program compares against.
  * Mutation of `self.conversation_history` / `self.chat_history` becomes
    explicit state passing on `ChatState`.  File writes and the PDF layer
    (fpdf) are external collaborators; the report composer is modelled up
    to the data handed to them.
-/

namespace ClinicChatbot

/-- ASCII whitespace test matching Python's `str.strip()` default set
(space, tab, newline, carriage return, vertical tab, form feed). -/
def is_ws (c : Char) : Bool :=
  c == ' ' || c == '\t' || c == '\n' || c == '\r' || c == '\x0b' || c == '\x0c'

/-- Python `s.strip()`: drop leading and trailing whitespace. -/
def py_strip (s : String) : String :=
  ⟨((s.data.dropWhile is_ws).reverse.dropWhile is_ws).reverse⟩

/-- ASCII lower-casing of one character (Python `str.lower()` restricted to
ASCII, exact on the program's comparison strings "hello" and "hi"). -/
def char_lower (c : Char) : Char :=
  if 65 ≤ c.toNat ∧ c.toNat ≤ 90 then Char.ofNat (c.toNat + 32) else c

/-- Python `s.lower()` (ASCII case table). -/
def py_lower (s : String) : String := ⟨s.data.map char_lower⟩

/-- Message roles of the chat protocol (`"system"`, `"user"`, `"assistant"`). -/
inductive Role where
  | system : Role
  | user : Role
  | assistant : Role
deriving DecidableEq, Repr

/-- One transcript entry: `{"role": ..., "content": ...}` in main.py. -/
structure Message where
  role : Role
  content : String
deriving DecidableEq, Repr

/-- The fixed behavioural instruction sent with every reply-generation call
(main.py `SYSTEM_PROMPT`, abridged to its opening here; its exact text is
consumed only by the remote service and no theorem depends on it). -/
def SYSTEM_PROMPT : String :=
  "You are a clinical chatbot designed to collect patient information for doctor evaluation."

/-- main.py `get_ai_response(conversation_history, user_input)`: append the
user turn, send system prompt + history to the completion endpoint; on
success strip and append the reply as an assistant turn and return it; on
any exception return `"Error: " ++ str(e)` without touching the history
further.  The pair returned is (updated history, returned string). -/
def get_ai_response (conversation_history : List Message) (user_input : String)
    (api : List Message → Except String String) : List Message × String :=
  let history1 := conversation_history ++ [⟨Role.user, user_input⟩]
  let messages := ⟨Role.system, SYSTEM_PROMPT⟩ :: history1
  match api messages with
  | Except.ok body =>
      let ai_message := py_strip body
      (history1 ++ [⟨Role.assistant, ai_message⟩], ai_message)
  | Except.error e => (history1, "Error: " ++ e)

/-- JSON values as produced by `json.loads` (an object's field list stands
for a Python dict with unique keys). -/
inductive JsonVal where
  | str : String → JsonVal
  | num : Int → JsonVal
  | bool : Bool → JsonVal
  | null : JsonVal
  | arr : List JsonVal → JsonVal
  | obj : List (String × JsonVal) → JsonVal
deriving Repr

/-- The fallback dict built in `generate_summary`'s `except` clause: all
four keys map to the literal `"Error generating summary."`. -/
def error_summary : JsonVal :=
  JsonVal.obj
    [("Symptoms", JsonVal.str "Error generating summary."),
     ("Duration", JsonVal.str "Error generating summary."),
     ("Severity", JsonVal.str "Error generating summary."),
     ("Additional Info", JsonVal.str "Error generating summary.")]

/-- main.py `generate_summary(conversation_history)`: one remote call whose
prompt embeds the serialized transcript; the stripped response text is fed
to `json.loads`.  Both the call raising and `json.loads` raising are caught
by the same `except`, which returns `error_summary`.  The transcript enters
only through the prompt (consumed by the oracle), hence the unused binder. -/
def generate_summary (_conversation_history : List Message)
    (api : Except String String) (json_loads : String → Option JsonVal) : JsonVal :=
  match api with
  | Except.error _ => error_summary
  | Except.ok body =>
      match json_loads (py_strip body) with
      | some summary => summary
      | none => error_summary

/-- main.py `generate_near_diagnosis(conversation_history)`: one remote
call; on success the stripped response, on exception
`"Error generating near diagnosis: " ++ str(e)`. -/
def generate_near_diagnosis (_conversation_history : List Message)
    (api : Except String String) : String :=
  match api with
  | Except.ok body => py_strip body
  | Except.error e => "Error generating near diagnosis: " ++ e

/-- The window state: `self.conversation_history` (the transcript store)
and the lines accumulated in the read-only chat view `self.chat_history`. -/
structure ChatState where
  conversation_history : List Message
  chat_history : List String
deriving DecidableEq, Repr

/-- The assistant greeting appended at window construction
(main.py `ChatWindow.__init__`, `initial_message`). -/
def initial_message : String :=
  "Hello! I'm here to assist your doctor with the necessary details you provide here. What symptoms are you experiencing?"

/-- State after `ChatWindow.__init__`: the greeting is appended to the
transcript as an assistant message and echoed to the chat view. -/
def initState : ChatState :=
  ⟨[⟨Role.assistant, initial_message⟩], ["AI: " ++ initial_message]⟩

/-- main.py `send_message`: strip the input field's text; if it is empty do
nothing; otherwise echo `"User: " ++ text` to the view, call
`get_ai_response`, and echo `"AI: " ++ reply`.  The second component counts
remote calls made by the operation (0 or 1). -/
def send_message (st : ChatState) (raw_input : String)
    (api : List Message → Except String String) : ChatState × Nat :=
  let user_text := py_strip raw_input
  if user_text = "" then (st, 0)
  else
    let view1 := st.chat_history ++ ["User: " ++ user_text]
    let r := get_ai_response st.conversation_history user_text api
    (⟨r.1, view1 ++ ["AI: " ++ r.2]⟩, 1)

/-- The messages surviving the extractor's filter, in transcript order:
user-authored and whose lower-cased content is neither "hello" nor "hi"
(main.py `extract_info_from_conversation`, the `user_responses`
comprehension). -/
def user_responses (conversation_history : List Message) : List String :=
  (conversation_history.filter
    (fun msg => msg.role == Role.user &&
      !(py_lower msg.content == "hello" || py_lower msg.content == "hi"))).map
    Message.content

/-- main.py `extract_info_from_conversation`: the 1st/2nd/3rd/4th surviving
user response become Symptoms/Duration/Severity/Additional Info, each
defaulting to "Not specified" when missing. -/
def extract_info_from_conversation (conversation_history : List Message) :
    String × String × String × String :=
  let u := user_responses conversation_history
  (u.getD 0 "Not specified", u.getD 1 "Not specified",
   u.getD 2 "Not specified", u.getD 3 "Not specified")

/-- First-match lookup in a dict's field list. -/
def lookup_key (fields : List (String × JsonVal)) (key : String) : Option JsonVal :=
  (fields.find? (fun p => p.1 == key)).map Prod.snd

/-- Python `summary.get(key, default)`: on a dict, the stored value when the
key is present (even if that value is `""` or `None`), else the default; on
any non-dict value the attribute access raises (`AttributeError`). -/
def dict_get (v : JsonVal) (key : String) (default : JsonVal) : Except String JsonVal :=
  match v with
  | JsonVal.obj fields => Except.ok ((lookup_key fields key).getD default)
  | _ => Except.error "AttributeError"

/-- main.py `extract_report` patient-name step: `QInputDialog.getText`
returns (text, ok); cancelled (`none`) or blank-after-strip input becomes
"Unknown", otherwise the text is kept untrimmed. -/
def resolve_patient_name (dialog : Option String) : String :=
  match dialog with
  | none => "Unknown"
  | some patient_name => if py_strip patient_name = "" then "Unknown" else patient_name

/-- The data `extract_report` assembles and hands to the PDF renderer:
the extracted-info dict (patient name plus the four merged fields, in
insertion order), the chat view's plain text, and the near diagnosis. -/
structure Report where
  patient_name : String
  symptoms : JsonVal
  duration : JsonVal
  severity : JsonVal
  additional_info : JsonVal
  chat_transcript : String
  assumptions : String
deriving Repr

/-- main.py `extract_report`: resolve the patient name, run the positional
extractor, write `conversation.json` (a file write of the unchanged
transcript, external), call `generate_summary`, merge each of the four
fields via `summary.get(key, positional_fallback)`, call
`generate_near_diagnosis`, take the chat view's plain text, and render the
PDF (external).  The transcript is read, never written, so the state passes
through unchanged; `Except.error` models the `.get` attribute access
raising when the parsed summary is not a dict. -/
def extract_report (st : ChatState) (dialog : Option String)
    (summary_api : Except String String) (json_loads : String → Option JsonVal)
    (diagnosis_api : Except String String) : Except String (ChatState × Report) := do
  let patient_name := resolve_patient_name dialog
  let raw := extract_info_from_conversation st.conversation_history
  let summary := generate_summary st.conversation_history summary_api json_loads
  let symptoms ← dict_get summary "Symptoms" (JsonVal.str raw.1)
  let duration ← dict_get summary "Duration" (JsonVal.str raw.2.1)
  let severity ← dict_get summary "Severity" (JsonVal.str raw.2.2.1)
  let additional_info ← dict_get summary "Additional Info" (JsonVal.str raw.2.2.2)
  let assumptions := generate_near_diagnosis st.conversation_history diagnosis_api
  let chat_transcript := String.intercalate "\n" st.chat_history
  return (st, ⟨patient_name, symptoms, duration, severity, additional_info,
               chat_transcript, assumptions⟩)

/-- States reachable in one session: the freshly constructed window,
then any sequence of Send and Extract actions. -/
inductive Reachable : ChatState → Prop where
  | init : Reachable initState
  | send : ∀ st raw api, Reachable st → Reachable (send_message st raw api).1
  | extract : ∀ st dialog sApi jl dApi st' r, Reachable st →
      extract_report st dialog sApi jl dApi = Except.ok (st', r) → Reachable st'

/-- The report `extract_report` produces when the parsed summary is the dict
`fields`: each of the four summary fields is the gateway value when the key
is present, else the positional extractor value for the same key. -/
def merged_report (st : ChatState) (dialog : Option String)
    (fields : List (String × JsonVal)) (dApi : Except String String) : Report :=
  let raw := extract_info_from_conversation st.conversation_history
  ⟨resolve_patient_name dialog,
   (lookup_key fields "Symptoms").getD (JsonVal.str raw.1),
   (lookup_key fields "Duration").getD (JsonVal.str raw.2.1),
   (lookup_key fields "Severity").getD (JsonVal.str raw.2.2.1),
   (lookup_key fields "Additional Info").getD (JsonVal.str raw.2.2.2),
   String.intercalate "\n" st.chat_history,
   generate_near_diagnosis st.conversation_history dApi⟩

/-- A concrete example session transcript: greeting, then the user turns
"hello", "fever", "3 days", "severe", "nothing else" interleaved with the
assistant's follow-up questions. -/
def exampleHistory : List Message :=
  [⟨Role.assistant, initial_message⟩,
   ⟨Role.user, "hello"⟩,
   ⟨Role.assistant, "What symptoms are you experiencing?"⟩,
   ⟨Role.user, "fever"⟩,
   ⟨Role.assistant, "How long have you had these symptoms?"⟩,
   ⟨Role.user, "3 days"⟩,
   ⟨Role.assistant, "How severe are the symptoms?"⟩,
   ⟨Role.user, "severe"⟩,
   ⟨Role.assistant, "Is there any additional information?"⟩,
   ⟨Role.user, "nothing else"⟩]

/- ## Helper lemmas -/

theorem get_ai_response_suffix (h : List Message) (u : String)
    (api : List Message → Except String String) :
    ∃ s, (get_ai_response h u api).1 = h ++ (⟨Role.user, u⟩ :: s) := by
  unfold get_ai_response
  cases hapi : api (⟨Role.system, SYSTEM_PROMPT⟩ :: (h ++ [⟨Role.user, u⟩])) with
  | ok body =>
      exact ⟨[⟨Role.assistant, py_strip body⟩], by simp [hapi]⟩
  | error e => exact ⟨[], by simp [hapi]⟩

theorem send_message_suffix (st : ChatState) (raw : String)
    (api : List Message → Except String String) :
    ∃ s, (send_message st raw api).1.conversation_history =
      st.conversation_history ++ s := by
  unfold send_message
  by_cases hc : py_strip raw = ""
  · exact ⟨[], by simp [hc]⟩
  · obtain ⟨s, hs⟩ := get_ai_response_suffix st.conversation_history (py_strip raw) api
    exact ⟨⟨Role.user, py_strip raw⟩ :: s, by simp [hc, hs]⟩

theorem extract_report_def (st : ChatState) (dialog : Option String)
    (sApi : Except String String) (jl : String → Option JsonVal)
    (dApi : Except String String) :
    extract_report st dialog sApi jl dApi =
      match generate_summary st.conversation_history sApi jl with
      | JsonVal.obj fields => Except.ok (st, merged_report st dialog fields dApi)
      | _ => Except.error "AttributeError" := by
  unfold extract_report merged_report
  cases generate_summary st.conversation_history sApi jl <;> rfl

theorem extract_report_eq_of_obj (st : ChatState) (dialog : Option String)
    (sApi : Except String String) (jl : String → Option JsonVal)
    (dApi : Except String String) (fields : List (String × JsonVal))
    (hsum : generate_summary st.conversation_history sApi jl = JsonVal.obj fields) :
    extract_report st dialog sApi jl dApi =
      Except.ok (st, merged_report st dialog fields dApi) := by
  rw [extract_report_def, hsum]

theorem extract_report_state_eq (st : ChatState) (dialog : Option String)
    (sApi : Except String String) (jl : String → Option JsonVal)
    (dApi : Except String String) (st' : ChatState) (r : Report)
    (h : extract_report st dialog sApi jl dApi = Except.ok (st', r)) :
    st' = st := by
  rw [extract_report_def] at h
  cases hsum : generate_summary st.conversation_history sApi jl <;> rw [hsum] at h
  case obj => cases h; rfl
  all_goals cases h

theorem user_responses_cons_assistant (c : String) (t : List Message) :
    user_responses (⟨Role.assistant, c⟩ :: t) = user_responses t := rfl

theorem user_responses_tail_of_head (l : List Message)
    (hh : l.head? = some ⟨Role.assistant, initial_message⟩) :
    user_responses l = user_responses l.tail := by
  cases l with
  | nil => cases hh
  | cons a t =>
      have ha : a = ⟨Role.assistant, initial_message⟩ := by
        injection hh
      subst ha
      exact user_responses_cons_assistant _ _

/- ## Claims -/

/-- C4: the Field Extractor keeps exactly the user-authored messages whose
lower-cased content is neither "hello" nor "hi" ("hello", "Hello", "HI" are
excluded; "hello there" is kept), and assigns the 1st/2nd/3rd/4th survivor
to Symptoms/Duration/Severity/Additional Info; on the example transcript
with user turns ["hello", "fever", "3 days", "severe", "nothing else"] it
yields ("fever", "3 days", "severe", "nothing else"). -/
theorem extractor_filter_and_positions :
    extract_info_from_conversation exampleHistory =
      ("fever", "3 days", "severe", "nothing else") ∧
    user_responses [⟨Role.user, "hello"⟩] = [] ∧
    user_responses [⟨Role.user, "Hello"⟩] = [] ∧
    user_responses [⟨Role.user, "HI"⟩] = [] ∧
    user_responses [⟨Role.user, "hello there"⟩] = ["hello there"] ∧
    extract_info_from_conversation [⟨Role.user, "hello there"⟩] =
      ("hello there", "Not specified", "Not specified", "Not specified") :=
  ⟨rfl, rfl, rfl, rfl, rfl, rfl⟩

/-- C5: whenever fewer than four non-greeting user messages survive the
filter, every unfilled positional slot is "Not specified"; with no
user-authored messages at all, all four fields are "Not specified". -/
theorem extractor_defaults (h : List Message)
    (hlen : (user_responses h).length < 4) :
    (extract_info_from_conversation h).2.2.2 = "Not specified" ∧
    ((user_responses h).length ≤ 2 →
      (extract_info_from_conversation h).2.2.1 = "Not specified") ∧
    ((user_responses h).length ≤ 1 →
      (extract_info_from_conversation h).2.1 = "Not specified") ∧
    ((user_responses h).length = 0 →
      (extract_info_from_conversation h).1 = "Not specified") ∧
    ((∀ m ∈ h, m.role ≠ Role.user) →
      extract_info_from_conversation h =
        ("Not specified", "Not specified", "Not specified", "Not specified")) := by
  have e : extract_info_from_conversation h =
      ((user_responses h).getD 0 "Not specified",
       (user_responses h).getD 1 "Not specified",
       (user_responses h).getD 2 "Not specified",
       (user_responses h).getD 3 "Not specified") := rfl
  refine ⟨?_, ?_, ?_, ?_, ?_⟩
  · rw [e]; exact List.getD_eq_default _ _ (by omega)
  · intro hl; rw [e]; exact List.getD_eq_default _ _ (by omega)
  · intro hl; rw [e]; exact List.getD_eq_default _ _ (by omega)
  · intro hl; rw [e]; exact List.getD_eq_default _ _ (by omega)
  · intro hu
    have hnil : user_responses h = [] := by
      unfold user_responses
      rw [List.filter_eq_nil_iff.mpr ?_]
      · rfl
      · intro m hm hcontra
        simp only [Bool.and_eq_true, beq_iff_eq] at hcontra
        exact hu m hm hcontra.1
    rw [e, hnil]
    rfl

/-- C5 witness: the empty transcript has no surviving user responses and
extracts to four "Not specified" fields. -/
theorem extractor_defaults_witness :
    (user_responses []).length < 4 ∧
    extract_info_from_conversation [] =
      ("Not specified", "Not specified", "Not specified", "Not specified") :=
  ⟨by decide, (extractor_defaults [] (by decide)).2.2.2.2 (by decide)⟩

/-- C2: if the summarization remote call raises, or it succeeds but its
(stripped) response text is not valid JSON, then the summary is the dict
mapping each of the four keys Symptoms/Duration/Severity/Additional Info to
the literal "Error generating summary.", whatever the transcript was. -/
theorem summary_failure_collapses (hist : List Message)
    (api : Except String String) (json_loads : String → Option JsonVal)
    (hfail : ∀ body, api = Except.ok body → json_loads (py_strip body) = none) :
    generate_summary hist api json_loads =
      JsonVal.obj
        [("Symptoms", JsonVal.str "Error generating summary."),
         ("Duration", JsonVal.str "Error generating summary."),
         ("Severity", JsonVal.str "Error generating summary."),
         ("Additional Info", JsonVal.str "Error generating summary.")] := by
  unfold generate_summary
  cases api with
  | error e => rfl
  | ok body =>
      have hb := hfail body rfl
      simp [hb, error_summary]

/-- C2 witness: a raising call (and, separately, a non-JSON response) on the
example transcript collapses to the fixed error dict. -/
theorem summary_failure_collapses_witness :
    generate_summary exampleHistory (Except.error "APIConnectionError")
        (fun _ => none) =
      JsonVal.obj
        [("Symptoms", JsonVal.str "Error generating summary."),
         ("Duration", JsonVal.str "Error generating summary."),
         ("Severity", JsonVal.str "Error generating summary."),
         ("Additional Info", JsonVal.str "Error generating summary.")] :=
  summary_failure_collapses exampleHistory (Except.error "APIConnectionError")
    (fun _ => none) (fun _ hbody => nomatch hbody)

/-- C7: submitting input that strips to the empty string is a silent no-op:
the window state (transcript and chat view) is returned unchanged and zero
remote calls are made. -/
theorem empty_input_noop (st : ChatState) (raw : String)
    (api : List Message → Except String String) (h : py_strip raw = "") :
    send_message st raw api = (st, 0) := by
  simp [send_message, h]

/-- C7 witness: whitespace-only input on the freshly constructed window. -/
theorem empty_input_noop_witness :
    send_message initState "   " (fun _ => Except.ok "reply") = (initState, 0) :=
  empty_input_noop initState "   " (fun _ => Except.ok "reply") (by decide)

/-- C8: when the reply-generation call raises, the user turn has already
been appended, so the transcript grows by exactly that one message, no
assistant message is appended, and the pre-call transcript is not restored:
the operation is not atomic. -/
theorem reply_failure_not_atomic (h : List Message) (input e : String)
    (api : List Message → Except String String)
    (hfail : ∀ ms, api ms = Except.error e) :
    (get_ai_response h input api).1 = h ++ [⟨Role.user, input⟩] ∧
    (get_ai_response h input api).2 = "Error: " ++ e ∧
    (get_ai_response h input api).1.length = h.length + 1 ∧
    (get_ai_response h input api).1 ≠ h := by
  have e1 : (get_ai_response h input api).1 = h ++ [⟨Role.user, input⟩] := by
    unfold get_ai_response
    simp only [hfail]
  refine ⟨e1, ?_, ?_, ?_⟩
  · unfold get_ai_response
    simp only [hfail]
  · rw [e1]; simp
  · rw [e1]
    intro hc
    have := congrArg List.length hc
    simp at this

/-- C8 witness: a failing call on the one-message session appends only the
user turn and returns the error text. -/
theorem reply_failure_not_atomic_witness :
    (get_ai_response [] "I have a headache" (fun _ => Except.error "boom")).1 =
      [⟨Role.user, "I have a headache"⟩] ∧
    (get_ai_response [] "I have a headache" (fun _ => Except.error "boom")).2 =
      "Error: boom" :=
  ⟨(reply_failure_not_atomic [] "I have a headache" "boom"
      (fun _ => Except.error "boom") (fun _ => rfl)).1,
   (reply_failure_not_atomic [] "I have a headache" "boom"
      (fun _ => Except.error "boom") (fun _ => rfl)).2.1⟩

/-- C1 counterexample: with an empty prior history, input "x", and a call
that raises "boom", `get_ai_response` returns the error text "Error: boom",
but the resulting transcript is exactly the single user turn — the error
message is NOT appended to the transcript as an assistant message, so the
claim as stated is false. -/
theorem reply_error_not_in_transcript :
    (get_ai_response [] "x" (fun _ => Except.error "boom")).2 = "Error: boom" ∧
    (get_ai_response [] "x" (fun _ => Except.error "boom")).1 =
      [⟨Role.user, "x"⟩] ∧
    ∀ m ∈ (get_ai_response [] "x" (fun _ => Except.error "boom")).1,
      m.role ≠ Role.assistant := by
  refine ⟨rfl, rfl, ?_⟩
  intro m hm
  have : m = ⟨Role.user, "x"⟩ := by
    have e : (get_ai_response [] "x" (fun _ => Except.error "boom")).1 =
        [⟨Role.user, "x"⟩] := rfl
    rw [e] at hm
    simpa using hm
  rw [this]
  decide

/-- C1 (amended): when the reply-generation call fails, `send_message`
makes its one remote call, the returned reply is the textual error message
"Error: " ++ detail, and that text is appended to the read-only chat view
as an "AI: " line exactly like a genuine reply; but the conversation
transcript gains only the user turn — no assistant message is appended to
it. -/
theorem reply_failure_amended (st : ChatState) (raw e : String)
    (api : List Message → Except String String)
    (hne : ¬ py_strip raw = "") (hfail : ∀ ms, api ms = Except.error e) :
    (send_message st raw api).2 = 1 ∧
    (send_message st raw api).1.conversation_history =
      st.conversation_history ++ [⟨Role.user, py_strip raw⟩] ∧
    (send_message st raw api).1.chat_history =
      st.chat_history ++
        ["User: " ++ py_strip raw, "AI: " ++ ("Error: " ++ e)] ∧
    ∀ m ∈ (send_message st raw api).1.conversation_history.drop
        st.conversation_history.length, m.role ≠ Role.assistant := by
  have egr : get_ai_response st.conversation_history (py_strip raw) api =
      (st.conversation_history ++ [⟨Role.user, py_strip raw⟩], "Error: " ++ e) := by
    unfold get_ai_response
    simp only [hfail]
  have es : send_message st raw api =
      (⟨st.conversation_history ++ [⟨Role.user, py_strip raw⟩],
        (st.chat_history ++ ["User: " ++ py_strip raw]) ++
          ["AI: " ++ ("Error: " ++ e)]⟩, 1) := by
    unfold send_message
    rw [if_neg hne, egr]
  refine ⟨by rw [es], by rw [es], by rw [es]; simp, ?_⟩
  rw [es]
  simp only [List.drop_left]
  intro m hm
  have : m = ⟨Role.user, py_strip raw⟩ := by simpa using hm
  rw [this]
  exact fun hc => Role.noConfusion hc

/-- C1 witness for the amended claim: input "fever" with a call raising
"boom" on the fresh window. -/
theorem reply_failure_amended_witness :
    (send_message initState "fever" (fun _ => Except.error "boom")).2 = 1 ∧
    (send_message initState "fever" (fun _ => Except.error "boom")).1.conversation_history =
      initState.conversation_history ++ [⟨Role.user, "fever"⟩] ∧
    (send_message initState "fever" (fun _ => Except.error "boom")).1.chat_history =
      initState.chat_history ++ ["User: fever", "AI: Error: boom"] :=
  ⟨(reply_failure_amended initState "fever" "boom" (fun _ => Except.error "boom")
      (by decide) (fun _ => rfl)).1,
   (reply_failure_amended initState "fever" "boom" (fun _ => Except.error "boom")
      (by decide) (fun _ => rfl)).2.1,
   (reply_failure_amended initState "fever" "boom" (fun _ => Except.error "boom")
      (by decide) (fun _ => rfl)).2.2.1⟩

/-- C6: the transcript only ever grows at the end.  `send_message` (and the
`get_ai_response` it wraps) appends a suffix to the conversation history,
report extraction returns the state unchanged whenever it returns at all,
and the prefix of the new history of the old history's length is exactly
the old history — no prior entry is edited, removed, or reordered. -/
theorem transcript_append_only (st : ChatState) (raw : String)
    (api : List Message → Except String String) (dialog : Option String)
    (sApi : Except String String) (jl : String → Option JsonVal)
    (dApi : Except String String) :
    (∃ s, (send_message st raw api).1.conversation_history =
      st.conversation_history ++ s) ∧
    (∃ s, (get_ai_response st.conversation_history raw api).1 =
      st.conversation_history ++ s) ∧
    ((extract_report st dialog sApi jl dApi).map Prod.fst =
      (extract_report st dialog sApi jl dApi).map (fun _ => st)) ∧
    ((send_message st raw api).1.conversation_history.take
      st.conversation_history.length = st.conversation_history) := by
  obtain ⟨s, hs⟩ := send_message_suffix st raw api
  refine ⟨⟨s, hs⟩, ?_, ?_, ?_⟩
  · obtain ⟨t, ht⟩ := get_ai_response_suffix st.conversation_history raw api
    exact ⟨⟨Role.user, raw⟩ :: t, ht⟩
  · rw [extract_report_def]
    cases generate_summary st.conversation_history sApi jl <;> rfl
  · rw [hs]
    exact List.take_left _ _

/-- C3: when the gateway summary parses to a dict, the report succeeds with
the input state, and each of the four merged fields is the gateway's value
for its key when that key is present, and the Field Extractor's positional
value for the same key when it is absent. -/
theorem report_merge_prefers_gateway (st : ChatState) (dialog : Option String)
    (fields : List (String × JsonVal)) (sApi : Except String String)
    (jl : String → Option JsonVal) (dApi : Except String String)
    (hsum : generate_summary st.conversation_history sApi jl = JsonVal.obj fields) :
    ∃ r, extract_report st dialog sApi jl dApi = Except.ok (st, r) ∧
      r.symptoms = (lookup_key fields "Symptoms").getD
        (JsonVal.str (extract_info_from_conversation st.conversation_history).1) ∧
      r.duration = (lookup_key fields "Duration").getD
        (JsonVal.str (extract_info_from_conversation st.conversation_history).2.1) ∧
      r.severity = (lookup_key fields "Severity").getD
        (JsonVal.str (extract_info_from_conversation st.conversation_history).2.2.1) ∧
      r.additional_info = (lookup_key fields "Additional Info").getD
        (JsonVal.str (extract_info_from_conversation st.conversation_history).2.2.2) :=
  ⟨merged_report st dialog fields dApi,
   extract_report_eq_of_obj st dialog sApi jl dApi fields hsum,
   rfl, rfl, rfl, rfl⟩

/-- C3 witness: on the example transcript, a gateway summary that supplies
Symptoms ("Fever and cough") but omits Duration yields the gateway value
for Symptoms and the extractor fallback "3 days" for Duration. -/
theorem report_merge_prefers_gateway_witness :
    ∃ r, extract_report ⟨exampleHistory, []⟩ (some "John Doe") (Except.ok "body")
        (fun _ => some (JsonVal.obj [("Symptoms", JsonVal.str "Fever and cough")]))
        (Except.error "diagnosis failed") = Except.ok (⟨exampleHistory, []⟩, r) ∧
      r.symptoms = JsonVal.str "Fever and cough" ∧
      r.duration = JsonVal.str "3 days" := by
  obtain ⟨r, hr, hsym, hdur, -, -⟩ :=
    report_merge_prefers_gateway ⟨exampleHistory, []⟩ (some "John Doe")
      [("Symptoms", JsonVal.str "Fever and cough")] (Except.ok "body")
      (fun _ => some (JsonVal.obj [("Symptoms", JsonVal.str "Fever and cough")]))
      (Except.error "diagnosis failed") rfl
  refine ⟨r, hr, ?_, ?_⟩
  · rw [hsym]; rfl
  · rw [hdur]; rfl

/-- C9: the extractor fallback is used only when a key is literally absent
from the parsed gateway dict: a key present with an empty-string or null
value keeps that value in the merged report. -/
theorem report_merge_present_empty_precedence (st : ChatState)
    (dialog : Option String) (fields : List (String × JsonVal))
    (sApi : Except String String) (jl : String → Option JsonVal)
    (dApi : Except String String)
    (hsum : generate_summary st.conversation_history sApi jl = JsonVal.obj fields)
    (hdur : lookup_key fields "Duration" = some JsonVal.null)
    (hsev : lookup_key fields "Severity" = some (JsonVal.str "")) :
    ∃ r, extract_report st dialog sApi jl dApi = Except.ok (st, r) ∧
      r.duration = JsonVal.null ∧ r.severity = JsonVal.str "" := by
  refine ⟨merged_report st dialog fields dApi,
    extract_report_eq_of_obj st dialog sApi jl dApi fields hsum, ?_, ?_⟩
  · show (lookup_key fields "Duration").getD _ = JsonVal.null
    rw [hdur]; rfl
  · show (lookup_key fields "Severity").getD _ = JsonVal.str ""
    rw [hsev]; rfl

/-- C9 witness: on the example transcript (whose extractor fallbacks are
"3 days" and "severe") a gateway dict carrying Duration = null and
Severity = "" keeps null and "" in the merged report. -/
theorem report_merge_present_empty_precedence_witness :
    ∃ r, extract_report ⟨exampleHistory, []⟩ none (Except.ok "body")
        (fun _ => some (JsonVal.obj
          [("Duration", JsonVal.null), ("Severity", JsonVal.str "")]))
        (Except.ok "viral infection") = Except.ok (⟨exampleHistory, []⟩, r) ∧
      r.duration = JsonVal.null ∧ r.severity = JsonVal.str "" :=
  report_merge_present_empty_precedence ⟨exampleHistory, []⟩ none
    [("Duration", JsonVal.null), ("Severity", JsonVal.str "")] (Except.ok "body")
    (fun _ => some (JsonVal.obj
      [("Duration", JsonVal.null), ("Severity", JsonVal.str "")]))
    (Except.ok "viral infection") rfl rfl rfl

/-- C10: the window is constructed with the transcript holding exactly the
assistant greeting, and in every reachable session state the transcript is
non-empty with that greeting as its first (assistant) message; the Field
Extractor's surviving user responses are unaffected by it (they are the
same as on the transcript's tail). -/
theorem greeting_invariant (st : ChatState) (hst : Reachable st) :
    initState.conversation_history = [⟨Role.assistant, initial_message⟩] ∧
    st.conversation_history ≠ [] ∧
    st.conversation_history.head? = some ⟨Role.assistant, initial_message⟩ ∧
    user_responses st.conversation_history =
      user_responses st.conversation_history.tail := by
  have main : st.conversation_history ≠ [] ∧
      st.conversation_history.head? = some ⟨Role.assistant, initial_message⟩ := by
    induction hst with
    | init => exact ⟨by simp [initState], rfl⟩
    | send st raw api hst ih =>
        obtain ⟨hne, hhead⟩ := ih
        obtain ⟨s, hs⟩ := send_message_suffix st raw api
        constructor
        · rw [hs]
          intro hc
          exact hne (List.append_eq_nil.mp hc).1
        · rw [hs, List.head?_append_of_ne_nil _ hne, hhead]
    | extract st dialog sApi jl dApi st' r hst hok ih =>
        rwa [extract_report_state_eq st dialog sApi jl dApi st' r hok]
  exact ⟨rfl, main.1, main.2, user_responses_tail_of_head _ main.2⟩

/-- C10 witness: the invariant instantiated at the freshly constructed
window state. -/
theorem greeting_invariant_witness :
    initState.conversation_history = [⟨Role.assistant, initial_message⟩] ∧
    initState.conversation_history ≠ [] ∧
    initState.conversation_history.head? = some ⟨Role.assistant, initial_message⟩ ∧
    user_responses initState.conversation_history =
      user_responses initState.conversation_history.tail :=
  greeting_invariant initState Reachable.init

end ClinicChatbot
